import Mathlib

/-!
Verification development for the dream-journal mobile client.

The definitions below are shallow embeddings of the offline-tolerant API
client and the dream store:
  - `mapBackendDream`, `createDreamPayload` embed the schema translation
    in src/hooks/useDreams.ts and src/services/api.ts;
  - `makeRequest`, `processOfflineQueue` embed the API gateway and the
    offline request queue in src/services/api.ts;
  - `loadDreams`, `createDream`, `updateDreamLocal`, `toggleFavoriteLocal`,
    `deleteDream` embed the dream store operations in src/hooks/useDreams.ts.
JavaScript objects are modelled with every field optional (a runtime object
may lack any property); JavaScript truthiness of strings (empty string is
falsy) is modelled by `jsOr` and `jsOrS`.
-/

namespace DreamJournal

/-- JavaScript `a || b` on possibly-absent strings: an absent or empty
string falls through to `b`, which is returned verbatim. -/
def jsOr : Option String → Option String → Option String
  | some s, b => if s = "" then b else some s
  | none, b => b

/-- JavaScript `a || d` where the fallback `d` is a present string. -/
def jsOrS (a : Option String) (d : String) : String :=
  match a with
  | some s => if s = "" then d else s
  | none => d

/-- Generated image record (interface DreamImage in src/services/api.ts). -/
structure DreamImage where
  url : String
  scene : String
  description : String
  prompt : Option String
  deriving DecidableEq, Repr

/-- Client-side entry shape (interface Dream in src/services/api.ts).
Every field is optional because a runtime object may lack any property;
`extra` carries unknown extra properties of the underlying object, so that
passthrough of unrecognized fields is expressible. -/
structure Dream where
  id : Option String := none
  title : Option String := none
  originalDream : Option String := none
  story : Option String := none
  analysis : Option String := none
  tone : Option String := none
  length : Option String := none
  date : Option String := none
  images : Option (List DreamImage) := none
  inputMode : Option String := none
  userId : Option String := none
  userEmail : Option String := none
  mood : Option String := none
  lucidity : Option Nat := none
  tags : Option (List String) := none
  isFavorite : Option Bool := none
  createdAt : Option String := none
  updatedAt : Option String := none
  count : Option Nat := none
  audioUri : Option String := none
  extra : List (String × String) := []
  deriving DecidableEq, Repr

/-- Server wire shape for an entry, as read by mapBackendDream and as
written by the create path. `extra` carries unknown extra properties. -/
structure WireDream where
  id : Option String := none
  title : Option String := none
  dreamText : Option String := none
  originalDream : Option String := none
  story : Option String := none
  analysisText : Option String := none
  analysis : Option String := none
  storyTone : Option String := none
  storyLength : Option String := none
  date : Option String := none
  createdAt : Option String := none
  updatedAt : Option String := none
  images : Option (List DreamImage) := none
  hasAudio : Option Bool := none
  audioUrl : Option String := none
  userId : Option String := none
  userEmail : Option String := none
  mood : Option String := none
  lucidity : Option Nat := none
  tags : Option (List String) := none
  isFavorite : Option Bool := none
  count : Option Nat := none
  extra : List (String × String) := []
  deriving DecidableEq, Repr

/-- Embedding of mapBackendDream (src/hooks/useDreams.ts, lines 12 to 34):
builds the client entry from a backend wire object, substituting defaults
for absent or falsy fields. The source returns an object literal with a
fixed key set, so unknown extra fields of the wire object do not appear in
the result: `extra` is empty. -/
def mapBackendDream (b : WireDream) : Dream where
  id := b.id
  title := some (jsOrS b.title "Untitled Dream")
  originalDream := some (jsOrS (jsOr b.dreamText b.originalDream) "")
  story := b.story
  analysis := jsOr b.analysisText b.analysis
  tone := some (jsOrS b.storyTone "whimsical")
  length := some (jsOrS b.storyLength "medium")
  date := jsOr b.date b.createdAt
  images := b.images
  inputMode := some (match b.hasAudio with | some true => "voice" | _ => "text")
  userId := b.userId
  userEmail := b.userEmail
  mood := b.mood
  lucidity := b.lucidity
  tags := some (b.tags.getD [])
  isFavorite := some (b.isFavorite.getD false)
  createdAt := b.createdAt
  updatedAt := b.updatedAt
  count := b.count
  audioUri := none
  extra := []

/-- Embedding of the mappedData literal in ApiService.createDream
(src/services/api.ts, lines 213 to 232): the client-to-server field mapping
used by the create path. Fields the literal does not mention are absent
from the wire object it sends. -/
def createDreamPayload (d : Dream) : WireDream where
  id := none
  title := d.title
  dreamText := d.originalDream
  originalDream := none
  story := d.story
  analysisText := none
  analysis := none
  storyTone := d.tone
  storyLength := d.length
  hasAudio := some (d.inputMode == some "voice")
  audioUrl := d.audioUri
  tags := some (d.tags.getD [])
  mood := d.mood
  lucidity := d.lucidity
  images := some (d.images.getD [])
  isFavorite := some (d.isFavorite.getD false)
  date := d.date
  createdAt := none
  updatedAt := none
  userId := none
  userEmail := none
  count := none
  extra := []

/-- Opaque request payload (the JSON body handed to makeRequest). -/
abbrev Payload := String

/-- A pending write held by the offline queue (the element shape of
ApiService.offlineQueue in src/services/api.ts). -/
structure QueuedRequest where
  method : String
  endpoint : String
  data : Option Payload
  timestamp : Nat
  deriving DecidableEq, Repr

/-- Connectivity probe snapshot (NetInfo state). -/
structure Conn where
  isConnected : Bool
  isInternetReachable : Bool
  deriving DecidableEq, Repr

/-- Outcome of one fetch call: a 2xx response, a non-2xx response whose
extracted message is `msg`, or a transport-level rejection. -/
inductive Transport where
  | ok
  | httpError (msg : String)
  | netError (msg : String)
  deriving DecidableEq, Repr

/-- The uniform result shape `{data?, error?, offline?}` returned by
makeRequest, with the body kept opaque (`hasData`). -/
structure RawResponse where
  hasData : Bool
  error : Option String
  offline : Bool
  deriving DecidableEq, Repr

/-- Result of one makeRequest call: the offline queue afterwards, the
response value, and whether a fetch was actually issued. -/
structure GatewayResult where
  queue : List QueuedRequest
  response : RawResponse
  transportCalled : Bool
  deriving DecidableEq, Repr

/-- Embedding of ApiService.makeRequest (src/services/api.ts, lines 131 to
194). `queue` is the offline queue when the call starts, `now` is the
clock value `Date.now()` would yield inside the call, and `tr` is the
outcome the transport would produce if a fetch is issued. If the probe
reports disconnected, a non-GET request is appended to the queue and an
offline result is returned; a GET returns an offline result without
queuing. If connected, a fetch is issued; a thrown error (non-2xx or
transport rejection) re-appends a non-GET request with a fresh timestamp
and surfaces the message. -/
def makeRequest (queue : List QueuedRequest) (conn : Conn)
    (method endpoint : String) (data : Option Payload) (now : Nat)
    (tr : Transport) : GatewayResult :=
  if !conn.isConnected || !conn.isInternetReachable then
    if method ≠ "GET" then
      { queue := queue ++ [⟨method, endpoint, data, now⟩]
        response := ⟨false, some "Request queued for offline sync", true⟩
        transportCalled := false }
    else
      { queue := queue
        response := ⟨false, some "No internet connection", true⟩
        transportCalled := false }
  else
    match tr with
    | .ok =>
      { queue := queue, response := ⟨true, none, false⟩, transportCalled := true }
    | .httpError msg =>
      { queue := if method ≠ "GET" then queue ++ [⟨method, endpoint, data, now⟩] else queue
        response := ⟨false, some msg, false⟩
        transportCalled := true }
    | .netError msg =>
      { queue := if method ≠ "GET" then queue ++ [⟨method, endpoint, data, now⟩] else queue
        response := ⟨false, some msg, false⟩
        transportCalled := true }

/-- Whether a transport outcome is a failure (lands in the catch block). -/
def transportFails : Transport → Bool
  | .ok => false
  | .httpError _ => true
  | .netError _ => true

/-- Whether one makeRequest call with this environment leaves the request
in the queue: non-GET, and either the probe reports disconnected or the
issued fetch fails. -/
def replayFails (method : String) (conn : Conn) (tr : Transport) : Bool :=
  method != "GET" &&
    (!(conn.isConnected && conn.isInternetReachable) || transportFails tr)

/-- Environment one replay iteration observes: the probe state, the clock
value, and the transport outcome for the issued fetch. -/
structure ReplayEnv where
  conn : Conn
  now : Nat
  transport : Transport
  deriving DecidableEq, Repr

/-- Observable action of the gateway during a drain: a persistence of the
live queue to the local cache, or a fetch issued for a snapshot entry. -/
inductive QEvent where
  | persist (q : List QueuedRequest)
  | call (r : QueuedRequest)
  deriving DecidableEq, Repr

/-- Replay loop of ApiService.processOfflineQueue: each snapshot entry is
fed to makeRequest against the current live queue; a fetch issue is
recorded as a `call` event and any queue change is persisted at once
(makeRequest saves after every push). -/
def drainGo : List (QueuedRequest × ReplayEnv) → List QueuedRequest →
    List QEvent → List QueuedRequest × List QEvent
  | [], q, evs => (q, evs)
  | (r, e) :: rest, q, evs =>
    let g := makeRequest q e.conn r.method r.endpoint r.data e.now e.transport
    drainGo rest g.queue
      ((evs ++ (if g.transportCalled then [.call r] else [])) ++
        (if g.queue = q then [] else [.persist g.queue]))

/-- Embedding of ApiService.processOfflineQueue (src/services/api.ts, lines
92 to 112): if the queue is empty, return at once; otherwise snapshot the
live queue, clear it, persist the now-empty queue, replay every snapshot
entry in order (each paired with the environment it observes), and persist
again at the end when entries remain. Returns the final live queue and the
event trace. -/
def processOfflineQueue (live : List QueuedRequest) (env : List ReplayEnv) :
    List QueuedRequest × List QEvent :=
  if live = [] then (live, [])
  else
    let res := drainGo (live.zip env) [] [.persist []]
    if res.1 ≠ [] then (res.1, res.2 ++ [.persist res.1]) else res

/-- The fetches issued during a trace, in order. -/
def callsOf (evs : List QEvent) : List QueuedRequest :=
  evs.filterMap (fun e => match e with | .call r => some r | _ => none)

/-- The queue a drain pass is expected to leave behind: the snapshot
entries whose replay failed, in snapshot order, each re-appended with the
clock value observed at its failure. -/
def requeuedFailures : List (QueuedRequest × ReplayEnv) → List QueuedRequest
  | [] => []
  | (r, e) :: rest =>
    (if replayFails r.method e.conn e.transport
      then [⟨r.method, r.endpoint, r.data, e.now⟩] else []) ++
      requeuedFailures rest

/-- Session identity as seen by useDreams: a guest session, a signed-in
user, or no user at all. -/
inductive Session where
  | guest
  | user
  | nouser
  deriving DecidableEq, Repr

/-- In-memory state of the useDreams hook. -/
structure DreamsState where
  dreams : List Dream
  recentDreams : List Dream
  favoriteDreams : List Dream
  hasMore : Bool
  page : Nat
  deriving DecidableEq, Repr

/-- JavaScript truthiness of `d.isFavorite` (absent reads as false). -/
def dreamIsFav (d : Dream) : Bool := d.isFavorite.getD false

/-- Body of a successful GET /dreams response. -/
structure GetDreamsData where
  dreams : List WireDream
  hasMore : Bool
  deriving DecidableEq, Repr

/-- The `{data?, error?, offline?}` result of an api call whose body, when
present, has shape `α`. -/
structure ApiResult (α : Type) where
  data : Option α
  error : Option String
  offline : Bool
  deriving DecidableEq, Repr

/-- How an awaited api call ends at the call site: with a result value
(makeRequest resolves errors into its result shape) or by throwing. -/
inductive CallOutcome (α : Type) where
  | response (r : ApiResult α)
  | thrown
  deriving DecidableEq, Repr

/-- Embedding of loadDreams (src/hooks/useDreams.ts, lines 49 to 111).
`cache` is the entry list currently stored under the local-storage key.
Guest: replace all views from the cache. Signed-in: if the gateway call
resolves with data, map each wire entry and replace (reset) or append;
if it resolves without data, clear all three views; if it throws, fall
back to the cache. No user: clear all three views. -/
def loadDreams (session : Session) (st : DreamsState) (reset : Bool)
    (outcome : CallOutcome GetDreamsData) (cache : List Dream) : DreamsState :=
  match session with
  | .guest =>
    { st with
      dreams := cache
      recentDreams := cache.take 5
      favoriteDreams := cache.filter dreamIsFav
      hasMore := false }
  | .user =>
    match outcome with
    | .response r =>
      match r.data with
      | some d =>
        let mapped := d.dreams.map mapBackendDream
        { st with
          dreams := if reset then mapped else st.dreams ++ mapped
          page := if reset then 1 else st.page
          recentDreams := mapped.take 5
          favoriteDreams := mapped.filter dreamIsFav
          hasMore := d.hasMore }
      | none =>
        { st with dreams := [], recentDreams := [], favoriteDreams := [] }
    | .thrown =>
      { st with
        dreams := cache
        recentDreams := cache.take 5
        favoriteDreams := cache.filter dreamIsFav }
  | .nouser =>
    { st with dreams := [], recentDreams := [], favoriteDreams := [] }

/-- Body of a successful POST /dreams response: either a wire entry or a
bare success flag. -/
structure CreateData where
  dream : Option WireDream
  success : Bool
  deriving DecidableEq, Repr

/-- Observable actions of createDream, in the order they happen: a head
insertion into the in-memory entry list, a write of the entry list to the
local cache, or the gateway create call. -/
inductive StoreEvent where
  | insertHead (d : Dream)
  | cacheWrite
  | apiCreateCall
  deriving DecidableEq, Repr

/-- The entry object createDream synthesizes locally (guest branch and the
bare-success branch): the caller partial spread first, then generated id,
dates, and defaults. `genId` is the generated id string and `now` the ISO
timestamp of the call. -/
def synthDream (dreamData : Dream) (genId now : String) : Dream :=
  { dreamData with
    id := some (jsOrS dreamData.id genId)
    date := some (jsOrS dreamData.date now)
    createdAt := some now
    updatedAt := some now
    isFavorite := some false
    tone := some (jsOrS dreamData.tone "whimsical")
    length := some (jsOrS dreamData.length "medium")
    inputMode := some (jsOrS dreamData.inputMode "text") }

/-- Embedding of createDream (src/hooks/useDreams.ts, lines 123 to 240).
Returns the event trace in execution order, the state after the call, and
the returned entry (`none` models a throw). Guest: synthesize, insert at
the head of all affected views, then write the list to the local cache.
Signed-in: await the gateway create call first; only after it resolves
with a wire entry (or a bare success flag) is anything inserted. -/
def createDream (session : Session) (st : DreamsState) (dreamData : Dream)
    (genId now : String) (response : ApiResult CreateData) :
    List StoreEvent × DreamsState × Option Dream :=
  match session with
  | .guest =>
    let newDream := synthDream dreamData genId now
    ([.insertHead newDream, .cacheWrite],
     { st with
        dreams := newDream :: st.dreams
        recentDreams := newDream :: st.recentDreams.take 4
        favoriteDreams :=
          if dreamIsFav newDream then newDream :: st.favoriteDreams
          else st.favoriteDreams },
     some newDream)
  | .user =>
    match response.data with
    | some cd =>
      match cd.dream with
      | some wd =>
        let mapped := mapBackendDream wd
        ([.apiCreateCall, .insertHead mapped, .cacheWrite],
         { st with
            dreams := mapped :: st.dreams
            recentDreams := mapped :: st.recentDreams.take 4
            favoriteDreams :=
              if dreamIsFav mapped then mapped :: st.favoriteDreams
              else st.favoriteDreams },
         some mapped)
      | none =>
        if cd.success then
          let newDream := synthDream dreamData genId now
          ([.apiCreateCall, .insertHead newDream],
           { st with
              dreams := newDream :: st.dreams
              recentDreams := newDream :: st.recentDreams.take 4 },
           some newDream)
        else ([.apiCreateCall], st, none)
    | none => ([.apiCreateCall], st, none)
  | .nouser => ([], st, none)

/-- A caller-supplied partial entry: `some v` marks a property present in
the partial with value `v`, `none` a property left out. -/
structure DreamPatch where
  id : Option (Option String) := none
  title : Option (Option String) := none
  originalDream : Option (Option String) := none
  story : Option (Option String) := none
  analysis : Option (Option String) := none
  tone : Option (Option String) := none
  length : Option (Option String) := none
  date : Option (Option String) := none
  images : Option (Option (List DreamImage)) := none
  inputMode : Option (Option String) := none
  mood : Option (Option String) := none
  lucidity : Option (Option Nat) := none
  tags : Option (Option (List String)) := none
  isFavorite : Option (Option Bool) := none
  updatedAt : Option (Option String) := none
  deriving DecidableEq, Repr

/-- JavaScript object spread `{...d, ...p}`: a property present in the
partial overrides the entry value. -/
def applyPatch (d : Dream) (p : DreamPatch) : Dream :=
  { d with
    id := p.id.getD d.id
    title := p.title.getD d.title
    originalDream := p.originalDream.getD d.originalDream
    story := p.story.getD d.story
    analysis := p.analysis.getD d.analysis
    tone := p.tone.getD d.tone
    length := p.length.getD d.length
    date := p.date.getD d.date
    images := p.images.getD d.images
    inputMode := p.inputMode.getD d.inputMode
    mood := p.mood.getD d.mood
    lucidity := p.lucidity.getD d.lucidity
    tags := p.tags.getD d.tags
    isFavorite := p.isFavorite.getD d.isFavorite
    updatedAt := p.updatedAt.getD d.updatedAt }

/-- Per-entry effect of updateDream (src/hooks/useDreams.ts, lines 242 to
304): the spread of the entry and the partial, with `updatedAt` then
overwritten by the mutation with the current ISO timestamp. -/
def updateDreamLocal (d : Dream) (p : DreamPatch) (now : String) : Dream :=
  { applyPatch d p with updatedAt := some now }

/-- Store-level local phase of updateDream: every entry with the given id
is replaced by its patched version in all three views. -/
def updateDream (st : DreamsState) (dreamId : String) (p : DreamPatch)
    (now : String) : DreamsState :=
  { st with
    dreams := st.dreams.map
      (fun d => if d.id == some dreamId then updateDreamLocal d p now else d)
    recentDreams := st.recentDreams.map
      (fun d => if d.id == some dreamId then updateDreamLocal d p now else d)
    favoriteDreams := st.favoriteDreams.map
      (fun d => if d.id == some dreamId then updateDreamLocal d p now else d) }

/-- Per-entry effect of toggleFavorite (src/hooks/useDreams.ts, lines 340
to 385, guest branch and the api-failure fallback): only the favorite flag
is flipped; no other field, `updatedAt` included, is touched. -/
def toggleFavoriteLocal (d : Dream) : Dream :=
  { d with isFavorite := some (!dreamIsFav d) }

/-- Store-level local toggleFavorite: flip the flag on the matching entry
in `dreams` and recompute `favoriteDreams` from the updated list. -/
def toggleFavorite (st : DreamsState) (dreamId : String) : DreamsState :=
  let updated := st.dreams.map
    (fun d => if d.id == some dreamId then toggleFavoriteLocal d else d)
  { st with
    dreams := updated
    favoriteDreams := updated.filter dreamIsFav }

/-- Embedding of deleteDream (src/hooks/useDreams.ts, lines 306 to 338):
the entry is filtered out of all three views first; the remote delete is
then attempted best-effort and its failure (`remoteFails`) only logs, so
the resulting state does not depend on it. -/
def deleteDream (session : Session) (st : DreamsState) (dreamId : String)
    (remoteFails : Bool) : DreamsState :=
  let _ := session
  let _ := remoteFails
  { st with
    dreams := st.dreams.filter (fun d => !(d.id == some dreamId))
    recentDreams := st.recentDreams.filter (fun d => !(d.id == some dreamId))
    favoriteDreams := st.favoriteDreams.filter (fun d => !(d.id == some dreamId)) }

/-- Whether a store event is the head insertion of an entry. -/
def isInsert : StoreEvent → Bool
  | .insertHead _ => true
  | _ => false

/-- Whether a store event is a persistence attempt: a local cache write or
the gateway create call. -/
def isPersistAttempt : StoreEvent → Bool
  | .cacheWrite => true
  | .apiCreateCall => true
  | _ => false

/-- The optimistic-first property of a createDream trace: no persistence
attempt occurs before the first head insertion. -/
def insertBeforePersist (tr : List StoreEvent) : Bool :=
  (tr.takeWhile (fun e => !isInsert e)).all (fun e => !isPersistAttempt e)

/-- Whether a replay iteration issues a fetch: exactly when its probe
snapshot reports connected and reachable. -/
def callIssued (pe : QueuedRequest × ReplayEnv) : Bool :=
  pe.2.conn.isConnected && pe.2.conn.isInternetReachable

/-- A connected and reachable probe snapshot. -/
def connUp : Conn := ⟨true, true⟩

/-- A disconnected probe snapshot. -/
def connDown : Conn := ⟨false, true⟩

/-- The empty store state. -/
def stEmpty : DreamsState := ⟨[], [], [], false, 1⟩

/-- The wire object of the load scenario: id, dreamText present, storyTone
absent. -/
def wireHello : WireDream := { id := some "x", dreamText := some "hello" }

/-- A wire object carrying an unknown extra field. -/
def wireExtra : WireDream := { id := some "x", extra := [("foo", "1")] }

/-- A client entry with id, tone and a last-mutation timestamp. -/
def dreamMystical : Dream :=
  { id := some "d1", originalDream := some "od", tone := some "mystical",
    updatedAt := some "2024-01-01T00:00:00Z" }

/-- A client entry populating every field the create path sends. -/
def dreamFull : Dream :=
  { id := some "x", title := some "A", originalDream := some "od",
    story := some "st", analysis := some "deep", tone := some "mystical",
    length := some "long", date := some "2024-01-02", images := some [],
    inputMode := some "voice", userId := some "u", mood := some "calm",
    lucidity := some 3, tags := some ["t1"], isFavorite := some true,
    createdAt := some "c", updatedAt := some "u1" }

/-- A queued POST, enqueued at time 1. -/
def reqA : QueuedRequest := ⟨"POST", "/a", some "p1", 1⟩

/-- A queued PUT, enqueued at time 2. -/
def reqB : QueuedRequest := ⟨"PUT", "/b", none, 2⟩

/-- A drain environment where the first replay fails over HTTP and the
second succeeds, both connected. -/
def envFailThenOk : List ReplayEnv :=
  [⟨connUp, 10, .httpError "boom"⟩, ⟨connUp, 11, .ok⟩]

/-- A wire object with every field absent. -/
def wireEmptyW : WireDream := {}

/-- A wire object whose title is present but empty. -/
def wireEmptyTitle : WireDream := { title := some "" }

/-- The queue a makeRequest call leaves behind: the incoming queue, plus
the request re-appended with the call-time clock value exactly when the
call fails for a non-GET method. -/
theorem makeRequest_queue_eq (queue : List QueuedRequest) (conn : Conn)
    (method endpoint : String) (data : Option Payload) (now : Nat) (tr : Transport) :
    (makeRequest queue conn method endpoint data now tr).queue =
      queue ++ (if replayFails method conn tr
        then [⟨method, endpoint, data, now⟩] else []) := by
  obtain ⟨c, i⟩ := conn
  by_cases hm : method = "GET" <;>
    cases c <;> cases i <;> cases tr <;>
      simp [makeRequest, replayFails, transportFails, hm]

/-- makeRequest issues a fetch exactly when the probe reports connected. -/
theorem makeRequest_transportCalled (queue : List QueuedRequest) (conn : Conn)
    (method endpoint : String) (data : Option Payload) (now : Nat) (tr : Transport) :
    (makeRequest queue conn method endpoint data now tr).transportCalled =
      (conn.isConnected && conn.isInternetReachable) := by
  obtain ⟨c, i⟩ := conn
  by_cases hm : method = "GET" <;>
    cases c <;> cases i <;> cases tr <;>
      simp [makeRequest, hm]

/-- Extracting the issued fetches distributes over trace concatenation. -/
theorem callsOf_append (a b : List QEvent) :
    callsOf (a ++ b) = callsOf a ++ callsOf b := by
  simp [callsOf]

/-- The head of a nonempty list survives appending on the right. -/
theorem head_append_left {α : Type} (l l2 : List α) (a : α) (h : l.head? = some a) :
    (l ++ l2).head? = some a := by
  cases l <;> simp_all

/-- The replay loop turns an accumulator queue into the accumulator
followed by the failed entries, in snapshot order, each requeued with the
clock value observed at its failure. -/
theorem drainGo_queue (l : List (QueuedRequest × ReplayEnv))
    (q : List QueuedRequest) (evs : List QEvent) :
    (drainGo l q evs).1 = q ++ requeuedFailures l := by
  induction l generalizing q evs with
  | nil => simp [drainGo, requeuedFailures]
  | cons pe rest ih =>
    obtain ⟨r, e⟩ := pe
    simp only [drainGo, requeuedFailures]
    rw [ih, makeRequest_queue_eq, List.append_assoc]

/-- The replay loop only appends to the event trace, so the first event of
the incoming trace stays first. -/
theorem drainGo_trace_head (l : List (QueuedRequest × ReplayEnv))
    (q : List QueuedRequest) (e0 : QEvent) (evs : List QEvent) :
    ((drainGo l q (e0 :: evs)).2).head? = some e0 := by
  induction l generalizing q evs with
  | nil => simp [drainGo]
  | cons pe rest ih =>
    obtain ⟨r, e⟩ := pe
    simp only [drainGo, List.cons_append]
    exact ih _ _

/-- The fetches the replay loop issues are exactly the snapshot entries
whose iteration observed a connected probe, in snapshot order. -/
theorem drainGo_calls (l : List (QueuedRequest × ReplayEnv))
    (q : List QueuedRequest) (evs : List QEvent) :
    callsOf (drainGo l q evs).2 =
      callsOf evs ++ (l.filter callIssued).map Prod.fst := by
  induction l generalizing q evs with
  | nil => simp [drainGo, callsOf]
  | cons pe rest ih =>
    obtain ⟨r, e⟩ := pe
    simp only [drainGo]
    rw [ih, callsOf_append, callsOf_append]
    have h1 : callsOf (if (makeRequest q e.conn r.method r.endpoint r.data e.now e.transport).queue = q
        then ([] : List QEvent)
        else [.persist (makeRequest q e.conn r.method r.endpoint r.data e.now e.transport).queue]) = [] := by
      split <;> simp [callsOf]
    have h2 : callsOf (if (makeRequest q e.conn r.method r.endpoint r.data e.now e.transport).transportCalled
        then [QEvent.call r] else []) =
        if callIssued (r, e) then [r] else [] := by
      rw [makeRequest_transportCalled]
      by_cases hc : (e.conn.isConnected && e.conn.isInternetReachable) = true <;>
        simp [callIssued, callsOf, hc]
    rw [h1, h2]
    simp only [List.filter_cons]
    by_cases hc : callIssued (r, e) <;> simp [hc]

/-- C1 counterexample: an authenticated load whose gateway call resolves
to an error result (no data) leaves the in-memory entries empty instead of
falling back to the nonempty local cache. -/
theorem C1_counterexample :
    (loadDreams .user stEmpty true
        (.response ⟨none, some "API Error: 500", false⟩) [dreamMystical]).dreams = [] ∧
      (loadDreams .user stEmpty true
        (.response ⟨none, some "API Error: 500", false⟩) [dreamMystical]).dreams ≠
        [dreamMystical] := ⟨rfl, by decide⟩

/-- C1 (amended): on an authenticated load, a gateway error result (error
field set, no data) clears all three in-memory views to empty; the
fallback to the local cache happens only when the gateway call throws an
exception. -/
theorem loadDreams_error_result_clears_thrown_uses_cache
    (st : DreamsState) (reset : Bool) (r : ApiResult GetDreamsData)
    (cache : List Dream) (h : r.data = none) :
    ((loadDreams .user st reset (.response r) cache).dreams = [] ∧
      (loadDreams .user st reset (.response r) cache).recentDreams = [] ∧
      (loadDreams .user st reset (.response r) cache).favoriteDreams = []) ∧
    ((loadDreams .user st reset .thrown cache).dreams = cache ∧
      (loadDreams .user st reset .thrown cache).recentDreams = cache.take 5 ∧
      (loadDreams .user st reset .thrown cache).favoriteDreams = cache.filter dreamIsFav) := by
  constructor
  · simp [loadDreams, h]
  · simp [loadDreams]

/-- C1 witness: the amended statement instantiated at a concrete error
result and a concrete one-entry cache. -/
theorem C1_witness :
    ((loadDreams .user stEmpty true (.response ⟨none, some "boom", false⟩)
        [dreamMystical]).dreams = [] ∧
      (loadDreams .user stEmpty true (.response ⟨none, some "boom", false⟩)
        [dreamMystical]).recentDreams = [] ∧
      (loadDreams .user stEmpty true (.response ⟨none, some "boom", false⟩)
        [dreamMystical]).favoriteDreams = []) ∧
    ((loadDreams .user stEmpty true .thrown [dreamMystical]).dreams = [dreamMystical] ∧
      (loadDreams .user stEmpty true .thrown [dreamMystical]).recentDreams = [dreamMystical] ∧
      (loadDreams .user stEmpty true .thrown [dreamMystical]).favoriteDreams = []) :=
  loadDreams_error_result_clears_thrown_uses_cache stEmpty true
    ⟨none, some "boom", false⟩ [dreamMystical] rfl

/-- C2 counterexample: in an authenticated create whose gateway call
returns a wire entry, the trace begins with the gateway create call, so a
persistence attempt precedes the head insertion, refuting the claim that
every create inserts before any persistence attempt. -/
theorem C2_counterexample :
    insertBeforePersist
      (createDream .user stEmpty dreamMystical "gid" "t0"
        ⟨some ⟨some wireHello, false⟩, none, false⟩).1 = false := rfl

/-- C2 (amended): a guest create inserts the synthesized entry at the head
of the in-memory list before the local cache write, and returns it; an
authenticated create issues the gateway create call first and inserts only
after it completes, so its trace always starts with the gateway call. -/
theorem createDream_guest_optimistic_user_gateway_first
    (st : DreamsState) (dreamData : Dream) (genId now : String)
    (response : ApiResult CreateData) :
    (createDream .guest st dreamData genId now response).1 =
      [.insertHead (synthDream dreamData genId now), .cacheWrite] ∧
    (createDream .guest st dreamData genId now response).2.1.dreams =
      synthDream dreamData genId now :: st.dreams ∧
    (createDream .guest st dreamData genId now response).2.2 =
      some (synthDream dreamData genId now) ∧
    insertBeforePersist (createDream .guest st dreamData genId now response).1 = true ∧
    (createDream .user st dreamData genId now response).1.head? =
      some .apiCreateCall := by
  refine ⟨rfl, rfl, rfl, rfl, ?_⟩
  obtain ⟨data, err, off⟩ := response
  cases data with
  | none => rfl
  | some cd =>
    obtain ⟨dr, sc⟩ := cd
    cases dr <;> cases sc <;> rfl

/-- C3 counterexample: a DELETE whose transport fails with a server error
is re-appended to the offline queue by makeRequest, refuting the claim
that a failed DELETE is never re-enqueued into the request queue. -/
theorem C3_counterexample :
    (makeRequest [] connUp "DELETE" "/dreams/x" none 5
        (.httpError "API Error: 500")).queue =
      [⟨"DELETE", "/dreams/x", none, 5⟩] ∧
    ([⟨"DELETE", "/dreams/x", none, 5⟩] : List QueuedRequest) ≠ [] :=
  ⟨rfl, by decide⟩

/-- C3 (amended): deleteDream removes the entry from all three in-memory
views immediately and the resulting state does not depend on whether the
remote delete fails (no restore); however, the failed DELETE request is
re-enqueued into the request queue by the gateway, which queues every
failed non-GET request. -/
theorem deleteDream_removes_views_no_restore_but_gateway_requeues
    (session : Session) (st : DreamsState) (dreamId : String)
    (queue : List QueuedRequest) (conn : Conn) (ep : String)
    (data : Option Payload) (now : Nat) (msg : String)
    (hconn : conn.isConnected = true ∧ conn.isInternetReachable = true) :
    (∀ rf : Bool,
      (deleteDream session st dreamId rf).dreams =
        st.dreams.filter (fun d => !(d.id == some dreamId)) ∧
      (deleteDream session st dreamId rf).recentDreams =
        st.recentDreams.filter (fun d => !(d.id == some dreamId)) ∧
      (deleteDream session st dreamId rf).favoriteDreams =
        st.favoriteDreams.filter (fun d => !(d.id == some dreamId))) ∧
    deleteDream session st dreamId true = deleteDream session st dreamId false ∧
    (makeRequest queue conn "DELETE" ep data now (.httpError msg)).queue =
      queue ++ [⟨"DELETE", ep, data, now⟩] := by
  refine ⟨fun rf => ⟨rfl, rfl, rfl⟩, rfl, ?_⟩
  obtain ⟨c, i⟩ := conn
  obtain ⟨h1, h2⟩ := hconn
  subst h1
  subst h2
  rw [makeRequest_queue_eq]
  have hrf : replayFails "DELETE" ⟨true, true⟩ (.httpError msg) = true := by
    simp [replayFails, transportFails, bne_iff_ne]
  rw [hrf]
  simp

/-- C3 witness: the amended statement instantiated at a concrete store
state and a concrete failing DELETE. -/
theorem C3_witness :
    (deleteDream .user stEmpty "d1" true).dreams = [] ∧
    (makeRequest [] connUp "DELETE" "/dreams/d1" none 5 (.httpError "boom")).queue =
      [] ++ [⟨"DELETE", "/dreams/d1", none, 5⟩] := by
  obtain ⟨ha, _, hc⟩ := deleteDream_removes_views_no_restore_but_gateway_requeues
    .user stEmpty "d1" [] connUp "/dreams/d1" none 5 "boom" ⟨rfl, rfl⟩
  exact ⟨(ha true).1, hc⟩

/-- C4 counterexample: the round trip of an entry through the create-path
wire mapping and mapBackendDream loses fields present in the entry: the
analysis and id fields come back absent. -/
theorem C4_counterexample :
    dreamFull.analysis = some "deep" ∧
    (mapBackendDream (createDreamPayload dreamFull)).analysis = none ∧
    dreamFull.id = some "x" ∧
    (mapBackendDream (createDreamPayload dreamFull)).id = none :=
  ⟨rfl, rfl, rfl, rfl⟩

/-- C4 (amended): the round trip preserves originalDream, story, tags,
mood, lucidity, images and isFavorite whenever present, preserves title,
tone, length and date whenever present and nonempty, and preserves an
inputMode of voice or text; but it drops id, analysis, createdAt,
updatedAt, userId, userEmail, the analysis count and unknown extras,
because the create-path mapping does not send those fields. -/
theorem roundTrip_preserves_sent_fields_drops_rest (e : Dream) :
    (∀ s, e.title = some s → s ≠ "" →
      (mapBackendDream (createDreamPayload e)).title = some s) ∧
    (∀ s, e.originalDream = some s →
      (mapBackendDream (createDreamPayload e)).originalDream = some s) ∧
    (mapBackendDream (createDreamPayload e)).story = e.story ∧
    (∀ s, e.tone = some s → s ≠ "" →
      (mapBackendDream (createDreamPayload e)).tone = some s) ∧
    (∀ s, e.length = some s → s ≠ "" →
      (mapBackendDream (createDreamPayload e)).length = some s) ∧
    (∀ s, e.date = some s → s ≠ "" →
      (mapBackendDream (createDreamPayload e)).date = some s) ∧
    (e.inputMode = some "voice" →
      (mapBackendDream (createDreamPayload e)).inputMode = some "voice") ∧
    (e.inputMode = some "text" →
      (mapBackendDream (createDreamPayload e)).inputMode = some "text") ∧
    (∀ l, e.tags = some l →
      (mapBackendDream (createDreamPayload e)).tags = some l) ∧
    (mapBackendDream (createDreamPayload e)).mood = e.mood ∧
    (mapBackendDream (createDreamPayload e)).lucidity = e.lucidity ∧
    (∀ l, e.images = some l →
      (mapBackendDream (createDreamPayload e)).images = some l) ∧
    (∀ b, e.isFavorite = some b →
      (mapBackendDream (createDreamPayload e)).isFavorite = some b) ∧
    (mapBackendDream (createDreamPayload e)).id = none ∧
    (mapBackendDream (createDreamPayload e)).analysis = none ∧
    (mapBackendDream (createDreamPayload e)).createdAt = none ∧
    (mapBackendDream (createDreamPayload e)).updatedAt = none ∧
    (mapBackendDream (createDreamPayload e)).userId = none ∧
    (mapBackendDream (createDreamPayload e)).userEmail = none ∧
    (mapBackendDream (createDreamPayload e)).count = none ∧
    (mapBackendDream (createDreamPayload e)).extra = [] := by
  refine ⟨?_, ?_, rfl, ?_, ?_, ?_, ?_, ?_, ?_, rfl, rfl, ?_, ?_,
    rfl, rfl, rfl, rfl, rfl, rfl, rfl, rfl⟩
  · intro s h hs; simp [mapBackendDream, createDreamPayload, jsOrS, h, hs]
  · intro s h
    by_cases hs : s = "" <;>
      simp [mapBackendDream, createDreamPayload, jsOr, jsOrS, h, hs]
  · intro s h hs; simp [mapBackendDream, createDreamPayload, jsOrS, h, hs]
  · intro s h hs; simp [mapBackendDream, createDreamPayload, jsOrS, h, hs]
  · intro s h hs; simp [mapBackendDream, createDreamPayload, jsOr, h, hs]
  · intro h; simp [mapBackendDream, createDreamPayload, h]
  · intro h; simp [mapBackendDream, createDreamPayload, h]
  · intro l h; simp [mapBackendDream, createDreamPayload, h]
  · intro l h; simp [mapBackendDream, createDreamPayload, h]
  · intro b h; simp [mapBackendDream, createDreamPayload, h]

/-- C4 witness: the amended statement instantiated at an entry populating
every field the create path sends. -/
theorem C4_witness :
    (mapBackendDream (createDreamPayload dreamFull)).title = some "A" ∧
    (mapBackendDream (createDreamPayload dreamFull)).originalDream = some "od" ∧
    (mapBackendDream (createDreamPayload dreamFull)).tone = some "mystical" ∧
    (mapBackendDream (createDreamPayload dreamFull)).length = some "long" ∧
    (mapBackendDream (createDreamPayload dreamFull)).date = some "2024-01-02" ∧
    (mapBackendDream (createDreamPayload dreamFull)).inputMode = some "voice" ∧
    (mapBackendDream (createDreamPayload dreamFull)).tags = some ["t1"] ∧
    (mapBackendDream (createDreamPayload dreamFull)).isFavorite = some true ∧
    (mapBackendDream (createDreamPayload dreamFull)).extra = [] := by
  obtain ⟨h1, h2, _, h4, h5, h6, h7, _, h9, _, _, _, h13,
    _, _, _, _, _, _, _, h21⟩ :=
    roundTrip_preserves_sent_fields_drops_rest dreamFull
  exact ⟨h1 "A" rfl (by decide), h2 "od" rfl, h4 "mystical" rfl (by decide),
    h5 "long" rfl (by decide), h6 "2024-01-02" rfl (by decide), h7 rfl,
    h9 ["t1"] rfl, h13 true rfl, h21⟩

/-- C5: a drain pass snapshots the queue, clears it, persists the empty
queue before anything else (the trace starts with that persistence),
issues the transport calls as an in-order sublist of the snapshot (FIFO),
leaves exactly the failed entries re-appended at the tail in snapshot
order, and when every iteration is connected it replays every snapshot
entry in original order. -/
theorem processOfflineQueue_fifo_drain (live : List QueuedRequest)
    (env : List ReplayEnv) (hne : live ≠ [])
    (hlen : env.length = live.length) :
    (processOfflineQueue live env).2.head? = some (.persist []) ∧
    List.Sublist (callsOf (processOfflineQueue live env).2) live ∧
    (processOfflineQueue live env).1 = requeuedFailures (live.zip env) ∧
    ((∀ e ∈ env, e.conn.isConnected = true ∧ e.conn.isInternetReachable = true) →
      callsOf (processOfflineQueue live env).2 = live) := by
  have hzipmap : (live.zip env).map Prod.fst = live :=
    List.map_fst_zip live env (le_of_eq hlen.symm)
  have hq : (processOfflineQueue live env).1 =
      requeuedFailures (live.zip env) := by
    simp only [processOfflineQueue, if_neg hne]
    split <;> simpa using drainGo_queue (live.zip env) [] [.persist []]
  have htr : (processOfflineQueue live env).2.head? = some (.persist []) := by
    simp only [processOfflineQueue, if_neg hne]
    split
    · exact head_append_left _ _ _ (drainGo_trace_head (live.zip env) [] _ [])
    · exact drainGo_trace_head (live.zip env) [] _ []
  have hcalls : callsOf (processOfflineQueue live env).2 =
      ((live.zip env).filter callIssued).map Prod.fst := by
    simp only [processOfflineQueue, if_neg hne]
    split
    · rw [callsOf_append]
      rw [drainGo_calls]
      simp [callsOf]
    · rw [drainGo_calls]
      simp [callsOf]
  refine ⟨htr, ?_, hq, ?_⟩
  · rw [hcalls]
    have hsub : List.Sublist (((live.zip env).filter callIssued).map Prod.fst)
        ((live.zip env).map Prod.fst) :=
      List.Sublist.map _ (List.filter_sublist _)
    rw [hzipmap] at hsub
    exact hsub
  · intro hall
    rw [hcalls]
    have hfe : (live.zip env).filter callIssued = live.zip env := by
      apply List.filter_eq_self.mpr
      intro pe hpe
      have hmem := List.of_mem_zip hpe
      have := hall pe.2 hmem.2
      simp [callIssued, this.1, this.2]
    rw [hfe, hzipmap]

/-- C5 witness: the drain statement instantiated at a two-request queue
whose first replay fails over HTTP and whose second succeeds. -/
theorem C5_witness :
    (processOfflineQueue [reqA, reqB] envFailThenOk).2.head? =
      some (.persist []) ∧
    List.Sublist (callsOf (processOfflineQueue [reqA, reqB] envFailThenOk).2)
      [reqA, reqB] ∧
    (processOfflineQueue [reqA, reqB] envFailThenOk).1 =
      requeuedFailures ([reqA, reqB].zip envFailThenOk) ∧
    ((∀ e ∈ envFailThenOk,
        e.conn.isConnected = true ∧ e.conn.isInternetReachable = true) →
      callsOf (processOfflineQueue [reqA, reqB] envFailThenOk).2 = [reqA, reqB]) :=
  processOfflineQueue_fifo_drain [reqA, reqB] envFailThenOk (by decide) (by decide)

/-- C6: while the probe reports disconnected, a non-GET request is handed
to the queue and resolves at once to an offline result with the queued
message, and a GET resolves to an offline no-connection result without
touching the queue; no fetch is issued in either case. -/
theorem makeRequest_offline_queues_writes_not_gets
    (queue : List QueuedRequest) (conn : Conn) (method endpoint : String)
    (data : Option Payload) (now : Nat) (tr : Transport)
    (hoff : conn.isConnected = false ∨ conn.isInternetReachable = false) :
    (method ≠ "GET" →
      makeRequest queue conn method endpoint data now tr =
        ⟨queue ++ [⟨method, endpoint, data, now⟩],
          ⟨false, some "Request queued for offline sync", true⟩, false⟩) ∧
    (method = "GET" →
      makeRequest queue conn method endpoint data now tr =
        ⟨queue, ⟨false, some "No internet connection", true⟩, false⟩) := by
  obtain ⟨c, i⟩ := conn
  constructor
  · intro hm
    rcases hoff with h | h <;> subst h <;> simp [makeRequest, hm]
  · intro hm
    subst hm
    rcases hoff with h | h <;> subst h <;> simp [makeRequest]

/-- C6 witness: the offline statement instantiated at a disconnected probe
with a POST and a GET. -/
theorem C6_witness :
    makeRequest [] connDown "POST" "/dreams" (some "p") 7 .ok =
      ⟨[⟨"POST", "/dreams", some "p", 7⟩],
        ⟨false, some "Request queued for offline sync", true⟩, false⟩ ∧
    makeRequest [] connDown "GET" "/dreams" none 7 .ok =
      ⟨[], ⟨false, some "No internet connection", true⟩, false⟩ :=
  ⟨(makeRequest_offline_queues_writes_not_gets [] connDown "POST" "/dreams"
      (some "p") 7 .ok (Or.inl rfl)).1 (by decide),
   (makeRequest_offline_queues_writes_not_gets [] connDown "GET" "/dreams"
      none 7 .ok (Or.inl rfl)).2 rfl⟩

/-- C7 counterexample: toggling the favorite flag leaves the stored
updatedAt at its old value, so a mutation performed at any later time does
not set updatedAt, refuting the claim that every mutation sets it. -/
theorem C7_counterexample :
    (toggleFavoriteLocal dreamMystical).updatedAt = some "2024-01-01T00:00:00Z" ∧
    dreamMystical.updatedAt = some "2024-01-01T00:00:00Z" ∧
    ("2024-01-01T00:00:00Z" : String) ≠ "2024-06-01T00:00:00Z" :=
  ⟨rfl, rfl, by decide⟩

/-- C7 (amended): updateDream sets updatedAt itself to the mutation time,
overriding any caller-supplied value in the partial; toggleFavorite leaves
updatedAt unchanged; and across an update followed by a toggle the field
never decreases when the clock does not. -/
theorem update_sets_updatedAt_toggle_preserves_it
    (d : Dream) (p : DreamPatch) (now : String) :
    (updateDreamLocal d p now).updatedAt = some now ∧
    (∀ z, p.updatedAt = some z → (updateDreamLocal d p now).updatedAt = some now) ∧
    (toggleFavoriteLocal d).updatedAt = d.updatedAt ∧
    (∀ t : String, d.updatedAt = some t → t ≤ now →
      ∃ u, (updateDreamLocal d p now).updatedAt = some u ∧ t ≤ u ∧
        (toggleFavoriteLocal (updateDreamLocal d p now)).updatedAt = some u) := by
  refine ⟨rfl, fun z h => rfl, rfl, ?_⟩
  intro t ht hle
  exact ⟨now, rfl, hle, rfl⟩

/-- C7 witness: the amended statement instantiated at a concrete entry, a
partial that tries to smuggle in its own updatedAt, and a concrete
mutation time. -/
theorem C7_witness :
    (updateDreamLocal dreamMystical { updatedAt := some (some "HACK") }
      "2024-01-01T00:00:00Z").updatedAt = some "2024-01-01T00:00:00Z" ∧
    (toggleFavoriteLocal dreamMystical).updatedAt = dreamMystical.updatedAt ∧
    (∃ u, (updateDreamLocal dreamMystical { updatedAt := some (some "HACK") }
        "2024-01-01T00:00:00Z").updatedAt = some u ∧
      ("2024-01-01T00:00:00Z" : String) ≤ u ∧
      (toggleFavoriteLocal (updateDreamLocal dreamMystical
        { updatedAt := some (some "HACK") }
        "2024-01-01T00:00:00Z")).updatedAt = some u) := by
  obtain ⟨h1, h2, h3, h4⟩ := update_sets_updatedAt_toggle_preserves_it dreamMystical
    { updatedAt := some (some "HACK") } "2024-01-01T00:00:00Z"
  exact ⟨h2 (some "HACK") rfl, h3, h4 "2024-01-01T00:00:00Z" rfl (le_refl _)⟩

/-- C8 counterexample: a wire object carrying an unknown extra field maps
to an entry without it, refuting the claim that unknown extra fields are
passed through unchanged. -/
theorem C8_counterexample :
    wireExtra.extra = [("foo", "1")] ∧ (mapBackendDream wireExtra).extra = [] ∧
    wireExtra.extra ≠ (mapBackendDream wireExtra).extra :=
  ⟨rfl, rfl, by decide⟩

/-- C8 (amended): mapBackendDream substitutes the documented defaults for
missing or null fields (tone whimsical, originalDream empty, length
medium, inputMode derived from hasAudio, tags empty, favorite false), is
total, and the load scenario with dreamText hello and null storyTone
yields the documented entry; but unknown extra fields are dropped, not
passed through, because the mapper builds a literal with a fixed key set. -/
theorem mapBackendDream_defaults_total_drops_extras (w : WireDream) :
    ((w.storyTone = none ∨ w.storyTone = some "") →
      (mapBackendDream w).tone = some "whimsical") ∧
    ((w.dreamText = none ∧ w.originalDream = none) →
      (mapBackendDream w).originalDream = some "") ∧
    ((w.storyLength = none ∨ w.storyLength = some "") →
      (mapBackendDream w).length = some "medium") ∧
    (mapBackendDream w).inputMode =
      some (if w.hasAudio = some true then "voice" else "text") ∧
    (w.tags = none → (mapBackendDream w).tags = some []) ∧
    (w.isFavorite = none → (mapBackendDream w).isFavorite = some false) ∧
    (mapBackendDream w).extra = [] ∧
    (loadDreams .user stEmpty true
        (.response ⟨some ⟨[wireHello], false⟩, none, false⟩) []).dreams.map
      (fun d => (d.originalDream, d.tone)) =
      [(some "hello", some "whimsical")] := by
  refine ⟨?_, ?_, ?_, ?_, ?_, ?_, rfl, rfl⟩
  · rintro (h | h) <;> simp [mapBackendDream, jsOrS, h]
  · rintro ⟨h1, h2⟩; simp [mapBackendDream, jsOr, jsOrS, h1, h2]
  · rintro (h | h) <;> simp [mapBackendDream, jsOrS, h]
  · rcases hw : w.hasAudio with _ | b
    · simp [mapBackendDream, hw]
    · cases b <;> simp [mapBackendDream, hw]
  · intro h; simp [mapBackendDream, h]
  · intro h; simp [mapBackendDream, h]

/-- C8 witness: the amended statement instantiated at the all-absent wire
object. -/
theorem C8_witness :
    (mapBackendDream wireEmptyW).tone = some "whimsical" ∧
    (mapBackendDream wireEmptyW).originalDream = some "" ∧
    (mapBackendDream wireEmptyW).length = some "medium" ∧
    (mapBackendDream wireEmptyW).extra = [] := by
  obtain ⟨h1, h2, h3, _, _, _, h7, _⟩ :=
    mapBackendDream_defaults_total_drops_extras wireEmptyW
  exact ⟨h1 (Or.inl rfl), h2 ⟨rfl, rfl⟩, h3 (Or.inl rfl), h7⟩

/-- C9: when a connected non-GET request fails (non-2xx or transport
rejection), the entry re-appended to the queue carries the clock value of
the failure itself; in particular replaying a queued request through a
drain that fails leaves an entry stamped with the replay-failure time, not
the original enqueue timestamp. -/
theorem makeRequest_requeues_with_failure_time
    (queue : List QueuedRequest) (conn : Conn) (method endpoint : String)
    (data : Option Payload) (now : Nat) (tr : Transport)
    (hconn : conn.isConnected = true ∧ conn.isInternetReachable = true)
    (hfail : transportFails tr = true) (hm : method ≠ "GET") :
    (makeRequest queue conn method endpoint data now tr).queue =
      queue ++ [⟨method, endpoint, data, now⟩] ∧
    (∀ q : QueuedRequest, ∀ e : ReplayEnv,
      q.method = method → q.endpoint = endpoint → q.data = data →
      e.conn = conn → e.now = now → e.transport = tr →
      (processOfflineQueue [q] [e]).1 = [⟨method, endpoint, data, now⟩]) := by
  have hrf : replayFails method conn tr = true := by
    simp [replayFails, hconn.1, hconn.2, hfail, bne_iff_ne, hm]
  constructor
  · rw [makeRequest_queue_eq, hrf]
    simp
  · intro q e hqm hqe hqd hec hen het
    have hne : ([q] : List QueuedRequest) ≠ [] := by simp
    have h1 : (processOfflineQueue [q] [e]).1 =
        requeuedFailures ([q].zip [e]) := by
      simp only [processOfflineQueue, if_neg hne]
      split <;> simpa using drainGo_queue ([q].zip [e]) [] [.persist []]
    rw [h1]
    simp [requeuedFailures, hqm, hqe, hqd, hec, hen, het, hrf]

/-- C9 witness: a queued POST enqueued at time 1 and replayed at time 99
against a rejecting transport leaves the queue holding the same request
stamped 99. -/
theorem C9_witness :
    (makeRequest [reqB] connUp "POST" "/a" (some "p1") 99 (.netError "x")).queue =
      [reqB] ++ [⟨"POST", "/a", some "p1", 99⟩] ∧
    (processOfflineQueue [reqA] [⟨connUp, 99, .netError "x"⟩]).1 =
      [⟨"POST", "/a", some "p1", 99⟩] := by
  obtain ⟨h1, h2⟩ := makeRequest_requeues_with_failure_time [reqB] connUp "POST"
    "/a" (some "p1") 99 (.netError "x") ⟨rfl, rfl⟩ rfl (by decide)
  exact ⟨h1, h2 reqA ⟨connUp, 99, .netError "x"⟩ rfl rfl rfl rfl rfl rfl⟩

/-- C10: a wire object whose title is absent or the empty string maps to
an entry titled Untitled Dream. -/
theorem mapBackendDream_untitled_default (w : WireDream)
    (h : w.title = none ∨ w.title = some "") :
    (mapBackendDream w).title = some "Untitled Dream" := by
  rcases h with h | h <;> simp [mapBackendDream, jsOrS, h]

/-- C10 witness: the statement instantiated at a title-free wire object
and at one with an empty-string title. -/
theorem C10_witness :
    (mapBackendDream wireHello).title = some "Untitled Dream" ∧
    (mapBackendDream wireEmptyTitle).title = some "Untitled Dream" :=
  ⟨mapBackendDream_untitled_default wireHello (Or.inl rfl),
   mapBackendDream_untitled_default wireEmptyTitle (Or.inr rfl)⟩

end DreamJournal
